import Mathlib

set_option maxHeartbeats 1000000
set_option maxRecDepth 8000

/-!
Shallow embedding of `src/lib/actions.ts` of the brobookme repository.

The server actions in that file orchestrate booking creation, payment
verification, subscription updates and slot/date blocking.  External
collaborators (the data store, the Razorpay SDK, node `crypto`, date-fns
formatting, email templates, Google Calendar) are modelled as explicit
parameters and as entries of an effect trace; the control flow, branching,
date arithmetic and string assembly of the actions themselves are translated
directly from the source.
-/

/-- JS `x || d` for an optional number: `null`/`undefined` and `0` are falsy. -/
def jsOrNat : Option Nat → Nat → Nat
  | none, d => d
  | some 0, d => d
  | some (k+1), _ => k + 1

/-- JS `x || d` for an optional string: `null`/`undefined` and `""` are falsy. -/
def jsOrStr : Option String → String → String
  | none, d => d
  | some s, d => if s = "" then d else s

/-- JS truthiness of an optional string (`null`/`undefined`/`""` are falsy). -/
def jsTruthyStr : Option String → Bool
  | none => false
  | some s => s != ""

/-- JS `s || undefined` as used for `address: fullAddress || undefined`. -/
def jsOrUndef : Option String → Option String
  | none => none
  | some s => if s = "" then none else some s

/-- A JS `Date` instant in UTC civil form: year, month (1-12), day (1-31),
and milliseconds within the day. -/
structure JsDate where
  year : Int
  month : Nat
  day : Nat
  ms : Nat
deriving DecidableEq

/-- Chronological strict order of instants (lexicographic on the civil form,
which agrees with instant order on valid dates); JS `a < b` on `Date`s. -/
def JsDate.lt (a b : JsDate) : Prop :=
  a.year < b.year ∨ (a.year = b.year ∧ (a.month < b.month ∨ (a.month = b.month ∧
    (a.day < b.day ∨ (a.day = b.day ∧ a.ms < b.ms)))))

/-- Chronological non-strict order of instants. -/
def JsDate.le (a b : JsDate) : Prop :=
  a.year < b.year ∨ (a.year = b.year ∧ (a.month < b.month ∨ (a.month = b.month ∧
    (a.day < b.day ∨ (a.day = b.day ∧ a.ms ≤ b.ms)))))

instance (a b : JsDate) : Decidable (JsDate.lt a b) := by
  unfold JsDate.lt; exact inferInstance

instance (a b : JsDate) : Decidable (JsDate.le a b) := by
  unfold JsDate.le; exact inferInstance

/-- Gregorian leap year. -/
def isLeapYear (y : Int) : Bool := y % 4 == 0 && (y % 100 != 0 || y % 400 == 0)

/-- Number of days in a month of a given year. -/
def daysInMonth (y : Int) (m : Nat) : Nat :=
  if m = 2 then (if isLeapYear y then 29 else 28)
  else if m = 4 ∨ m = 6 ∨ m = 9 ∨ m = 11 then 30
  else 31

/-- The next civil day (time of day preserved). -/
def JsDate.nextDay (d : JsDate) : JsDate :=
  if d.day < daysInMonth d.year d.month then { d with day := d.day + 1 }
  else if d.month < 12 then { d with month := d.month + 1, day := 1 }
  else { d with year := d.year + 1, month := 1, day := 1 }

/-- date-fns `addDays` for the whole, non-negative day counts used by trial
plans. -/
def JsDate.addDays (d : JsDate) (n : Nat) : JsDate := Nat.iterate JsDate.nextDay n d

/-- date-fns `addMonths(date, 1)`: advance the month, clamping the
day-of-month to the target month's length. -/
def JsDate.addMonths1 (d : JsDate) : JsDate :=
  if d.month = 12 then
    { d with year := d.year + 1, month := 1, day := min d.day (daysInMonth (d.year + 1) 1) }
  else
    { d with month := d.month + 1, day := min d.day (daysInMonth d.year (d.month + 1)) }

/-- date-fns `addYears(date, 1)`: advance the year, clamping the day-of-month
(Feb 29 becomes Feb 28). -/
def JsDate.addYears1 (d : JsDate) : JsDate :=
  { d with year := d.year + 1, day := min d.day (daysInMonth (d.year + 1) d.month) }

/-- JS `new Date(d.getTime() + delta)` for a non-negative delta in ms. -/
def JsDate.addMs (d : JsDate) (delta : Nat) : JsDate :=
  let total := d.ms + delta
  { (Nat.iterate JsDate.nextDay (total / 86400000) { d with ms := 0 }) with ms := total % 86400000 }

/-- `new Date('9999-12-31')`, the lifetime-plan sentinel expiry. -/
def lifetimeExpiry : JsDate := ⟨9999, 12, 31, 0⟩

/-- Zero-pad to two digits. -/
def pad2 (n : Nat) : String := if n < 10 then "0" ++ toString n else toString n

/-- Zero-pad to three digits. -/
def pad3 (n : Nat) : String :=
  if n < 10 then "00" ++ toString n else if n < 100 then "0" ++ toString n else toString n

/-- Zero-pad a (non-negative) year to four digits. -/
def pad4 (n : Int) : String :=
  let m := n.toNat
  if m < 10 then "000" ++ toString m
  else if m < 100 then "00" ++ toString m
  else if m < 1000 then "0" ++ toString m
  else toString m

/-- JS `Date.prototype.toISOString` (always UTC, millisecond precision). -/
def JsDate.toISOString (d : JsDate) : String :=
  pad4 d.year ++ "-" ++ pad2 d.month ++ "-" ++ pad2 d.day ++ "T" ++
  pad2 (d.ms / 3600000) ++ ":" ++ pad2 (d.ms % 3600000 / 60000) ++ ":" ++
  pad2 (d.ms % 60000 / 1000) ++ "." ++ pad3 (d.ms % 1000) ++ "Z"

/-- `toGoogleISO` from actions.ts:
`date.toISOString().replace(/[-:]/g, '').split('.')[0] + 'Z'`. -/
def toGoogleISO (d : JsDate) : String :=
  String.mk (((JsDate.toISOString d).data.filter
    (fun c => c != '-' && c != ':')).takeWhile (fun c => c != '.')) ++ "Z"

/-- Days since 1970-01-01 of a civil date (Hinnant's algorithm; only
positive-era inputs are used here). -/
def daysFromCivil (y : Int) (m : Nat) (d : Nat) : Int :=
  let yAdj : Int := if m ≤ 2 then y - 1 else y
  let era : Int := (if 0 ≤ yAdj then yAdj else yAdj - 399) / 400
  let yoe : Int := yAdj - era * 400
  let mp : Nat := if 2 < m then m - 3 else m + 9
  let doy : Int := (153 * (mp : Int) + 2) / 5 + (d : Int) - 1
  let doe : Int := yoe * 365 + yoe / 4 - yoe / 100 + doy
  era * 146097 + doe - 719468

/-- Epoch milliseconds of a UTC civil instant (JS `Date.prototype.getTime`). -/
def JsDate.instantMs (x : JsDate) : Int :=
  daysFromCivil x.year x.month x.day * 86400000 + x.ms

/-- Numeric value of a decimal digit character. -/
def digitVal (c : Char) : Nat := c.toNat - 48

/-- Parse a compact local date-time string `YYYYMMDDTHHMMSS` (the format the
actions embed after `TZID=...:` in the generated ics). -/
def parseCompactLocal (s : String) : Option JsDate :=
  match s.data with
  | [y1, y2, y3, y4, mo1, mo2, d1, d2, 'T', h1, h2, mi1, mi2, se1, se2] =>
      some { year := (1000 * digitVal y1 + 100 * digitVal y2 + 10 * digitVal y3 + digitVal y4 : Nat),
             month := 10 * digitVal mo1 + digitVal mo2,
             day := 10 * digitVal d1 + digitVal d2,
             ms := (10 * digitVal h1 + digitVal h2) * 3600000 +
                   (10 * digitVal mi1 + digitVal mi2) * 60000 +
                   (10 * digitVal se1 + digitVal se2) * 1000 }
  | _ => none

/-- Parse a compact UTC date-time string `YYYYMMDDTHHMMSSZ` (the format the
actions embed in the Google Calendar `dates=` parameter). -/
def parseCompactUTC (s : String) : Option JsDate :=
  match s.data with
  | [y1, y2, y3, y4, mo1, mo2, d1, d2, 'T', h1, h2, mi1, mi2, se1, se2, 'Z'] =>
      some { year := (1000 * digitVal y1 + 100 * digitVal y2 + 10 * digitVal y3 + digitVal y4 : Nat),
             month := 10 * digitVal mo1 + digitVal mo2,
             day := 10 * digitVal d1 + digitVal d2,
             ms := (10 * digitVal h1 + digitVal h2) * 3600000 +
                   (10 * digitVal mi1 + digitVal mi2) * 60000 +
                   (10 * digitVal se1 + digitVal se2) * 1000 }
  | _ => none

/-- The instant a compact UTC string denotes. -/
def utcCompactInstant (s : String) : Option Int := (parseCompactUTC s).map JsDate.instantMs

/-- The instant an RFC 5545 `DTSTART;TZID=zone:local` value denotes, given the
zone's UTC offset in milliseconds (east of UTC positive). -/
def tzCompactInstant (offsetMs : Int) (s : String) : Option Int :=
  (parseCompactLocal s).map (fun d => d.instantMs - offsetMs)

/-! ## Data model (src/lib/types.ts as used by actions.ts) -/

/-- A provider's bookable service type (catalog entry). -/
structure ServiceType where
  id : String
  name : String
  enabled : Bool
  priceEnabled : Bool
  price : Option Nat
deriving DecidableEq

/-- Provider settings as read and written by the actions. -/
structure ProviderSettings where
  serviceTypes : List ServiceType
  onlinePaymentEnabled : Bool
  payAfterServiceEnabled : Bool
  timezone : String
  dateFormat : Option String
  currency : String
  shopAddress : Option String
  googleMapLink : Option String
  slotDuration : Option Nat
  blockedSlots : Option (List String)
  blockedDates : Option (List String)
deriving DecidableEq

/-- A provider record. -/
structure Provider where
  username : String
  name : String
  contactEmail : String
  planId : Option String
  planExpiry : Option JsDate
  hasUsedTrial : Bool
  googleCalendar : Bool
  settings : ProviderSettings
deriving DecidableEq

/-- Subscription plan duration class. -/
inductive PlanDuration where
  | trial
  | monthly
  | yearly
  | lifetime
deriving DecidableEq

/-- A subscription plan. -/
structure Plan where
  id : String
  name : String
  price : Nat
  duration : PlanDuration
  days : Option Nat
deriving DecidableEq

/-- The embedded payment sub-record of a booking (all fields optional, as the
actions write partial records). -/
structure PaymentInfo where
  orderId : Option String := none
  paymentId : Option String := none
  amount : Option Nat := none
  status : Option String := none
deriving DecidableEq

/-- A partial booking update as passed to `updateBooking`. -/
structure BookingUpdate where
  status : Option String := none
  payment : Option PaymentInfo := none
  googleCalendarEventId : Option String := none
  googleMeetLink : Option String := none
deriving DecidableEq

/-- The new booking record assembled by `createBooking` and passed to
`addBooking`. -/
structure NewBooking where
  customerName : String
  customerEmail : String
  customerPhone : String
  serviceType : String
  dateTime : JsDate
  providerUsername : String
  address : Option String
  flatHouseNo : Option String := none
  landmark : Option String := none
  pincode : Option String := none
  city : Option String := none
  state : Option String := none
  country : Option String := none
deriving DecidableEq

/-- A stored booking as returned by `getBookingById` (the fields
`verifyBookingPayment` reads). -/
structure StoredBooking where
  customerName : String
  customerEmail : String
  customerPhone : String
  serviceType : String
  dateTime : JsDate
  address : Option String
deriving DecidableEq

/-- A payment ledger record as passed to `createPaymentRecord`. -/
structure PaymentRecordData where
  providerUsername : String
  planId : String
  amount : Nat
  currency : String
  razorpay_payment_id : String
  razorpay_order_id : String
  bookingId : Option String := none
deriving DecidableEq

/-- The options object handed to `razorpay.orders.create`. -/
structure RazorpayOrderOptions where
  amount : Nat
  currency : String
  receipt : String
  payment_capture : Nat
deriving DecidableEq

/-- `createRazorpayOrder`: the order request the action builds (amount in
minor units, receipt derived from the current timestamp, auto-capture). -/
def createRazorpayOrderOptions (amount : Nat) (currency : String) (nowMs : Nat) :
    RazorpayOrderOptions :=
  { amount := amount * 100
    currency := currency
    receipt := "receipt_order_" ++ toString nowMs
    payment_capture := 1 }

/-- The three calendar-add artifacts generated for a confirmed booking. -/
structure CalendarArtifacts where
  googleLink : String
  outlookLink : String
  icsContent : String
  icsLink : String
deriving DecidableEq

/-- Build the calendar-add artifacts exactly as actions.ts lines 161-171 /
311-321 do.  `enc` is `encodeURIComponent` (an external runtime primitive);
the `dates=` values of the Google link and the DTSTART/DTEND values of the
ics are embedded unencoded. -/
def buildCalendarArtifacts (enc : String → String) (providerName serviceType : String)
    (address : Option String) (tz : String) (slotDuration : Option Nat)
    (bookingDateTime : JsDate) : CalendarArtifacts :=
  let eventTitle := enc ("Appointment with " ++ providerName)
  let eventDescription := enc ("Booking for " ++ serviceType ++ " with " ++ providerName ++ ".")
  let eventLocation := enc (jsOrStr address "Online")
  let startTime := bookingDateTime
  let endTime := startTime.addMs (jsOrNat slotDuration 60 * 60 * 1000)
  let googleLink := "https://www.google.com/calendar/render?action=TEMPLATE&text=" ++ eventTitle ++
    "&dates=" ++ toGoogleISO startTime ++ "/" ++ toGoogleISO endTime ++
    "&details=" ++ eventDescription ++ "&location=" ++ eventLocation
  let outlookLink := "https://outlook.live.com/calendar/0/deeplink/compose?path=/calendar/action/compose&rru=addevent&subject=" ++
    eventTitle ++ "&startdt=" ++ startTime.toISOString ++ "&enddt=" ++ endTime.toISOString ++
    "&body=" ++ eventDescription ++ "&location=" ++ eventLocation
  let icsContent := String.intercalate "\r\n"
    [ "BEGIN:VCALENDAR", "VERSION:2.0", "BEGIN:VEVENT",
      "DTSTART;TZID=" ++ tz ++ ":" ++ (toGoogleISO startTime).dropRight 1,
      "DTEND;TZID=" ++ tz ++ ":" ++ (toGoogleISO endTime).dropRight 1,
      "SUMMARY:" ++ eventTitle, "DESCRIPTION:" ++ eventDescription,
      "LOCATION:" ++ eventLocation, "END:VEVENT", "END:VCALENDAR" ]
  let icsLink := "data:text/calendar;charset=utf-8," ++ enc icsContent
  { googleLink := googleLink, outlookLink := outlookLink
    icsContent := icsContent, icsLink := icsLink }

/-- The `dates=` parameter value embedded in the Google link for a given
start/end pair. -/
def googleDatesParam (startTime endTime : JsDate) : String :=
  toGoogleISO startTime ++ "/" ++ toGoogleISO endTime

/-- One entry of the effect trace: every external mutation or send an action
performs, in program order.  Store reads are modelled as inputs instead. -/
inductive Effect where
  | addBooking (booking : NewBooking) (status : String)
  | updateBooking (providerUsername bookingId : String) (update : BookingUpdate)
  | createRazorpayOrder (options : RazorpayOrderOptions)
  | createCalendarEvent (providerUsername : String)
  | addNotification (target message ntype link : String)
  | sendBookingConfirmationEmail (recipient paymentDetails : String) (artifacts : CalendarArtifacts)
  | sendProviderBookingNotificationEmail (recipient paymentDetails : String)
  | createPaymentRecord (record : PaymentRecordData)
  | updateProvider (username : String)
  | sendSubscriptionEmail (recipient : String)
  | revalidate (path : String)
deriving DecidableEq

/-- Is this effect a notification append or an email send? -/
def Effect.isNotificationOrEmail : Effect → Bool
  | .addNotification _ _ _ _ => true
  | .sendBookingConfirmationEmail _ _ _ => true
  | .sendProviderBookingNotificationEmail _ _ => true
  | .sendSubscriptionEmail _ => true
  | _ => false

/-- Is this effect an `updateBooking` call? -/
def Effect.isUpdateBooking : Effect → Bool
  | .updateBooking _ _ _ => true
  | _ => false

/-- Is this effect a gateway order creation? -/
def Effect.isCreateOrder : Effect → Bool
  | .createRazorpayOrder _ => true
  | _ => false

/-! ## Booking workflow (`createBooking`) -/

/-- The schema-validated form data (`BookingSchema.safeParse` succeeded; the
zod schema itself is an external collaborator). -/
structure BookingData where
  customerName : String
  customerEmail : String
  countryCode : String
  customerPhone : String
  serviceType : String
  dateTime : JsDate
  providerUsername : String
  paymentMethod : String
  flatHouseNo : String
  landmark : Option String
  pincode : String
  city : String
  state : String
  country : String
deriving DecidableEq

/-- The `${data.landmark ? data.landmark + ', ' : ''}` segment. -/
def landmarkPart : Option String → String
  | none => ""
  | some l => if l = "" then "" else l ++ ", "

/-- Doorstep address assembly from actions.ts line 52. -/
def doorstepAddress (d : BookingData) : String :=
  d.flatHouseNo ++ ", " ++ landmarkPart d.landmark ++ d.city ++ ", " ++ d.state ++
  " - " ++ d.pincode ++ ", " ++ d.country

/-- `fullAddress` (actions.ts lines 51-53): doorstep assembles the parts, shop
uses the provider's shop address, anything else is the literal `Online`. -/
def fullAddressOf (st : Option ServiceType) (settings : ProviderSettings)
    (d : BookingData) : Option String :=
  match st with
  | some s =>
      if s.id = "doorstep" then some (doorstepAddress d)
      else if s.id = "shop" then settings.shopAddress
      else some "Online"
  | none => some "Online"

/-- `isPaidService` (actions.ts line 77): price enabled and a price that is
truthy and positive. -/
def isPaidServiceOf : Option ServiceType → Bool
  | none => false
  | some st => st.priceEnabled && (match st.price with
      | none => false
      | some p => decide (0 < p))

/-- An order returned by the Razorpay SDK (external; only its id is used). -/
structure RazorpayOrder where
  id : String
deriving DecidableEq

/-- Outcome of the external `createGoogleCalendarEvent` call. -/
inductive CalendarOutcome where
  | ok (eventId meetLink : Option String)
  | failed
deriving DecidableEq

/-- Values supplied by external collaborators during one `createBooking`
run: the id `addBooking` allocates, the order the gateway returns, the
calendar outcome, and the current timestamp used for the receipt id. -/
structure BookingEnv where
  bookingId : String
  order : RazorpayOrder
  calendar : CalendarOutcome
  nowMs : Nat
deriving DecidableEq

/-- The confirmation-page query parameters assembled in actions.ts lines
82-100 (URL encoding is external; modelled as the ordered key/value list). -/
def confirmationParamsOf (provider : Provider) (d : BookingData)
    (customerTimezone : String) (fullAddress : Option String) :
    List (String × String) :=
  [ ("customerName", d.customerName),
    ("customerEmail", d.customerEmail),
    ("customerPhone", d.countryCode ++ d.customerPhone),
    ("serviceType", d.serviceType),
    ("dateTime", d.dateTime.toISOString),
    ("providerName", provider.name),
    ("providerEmail", provider.contactEmail),
    ("providerUsername", provider.username) ]
  ++ (if jsTruthyStr fullAddress then [("address", fullAddress.getD "")] else [])
  ++ (if jsTruthyStr provider.settings.googleMapLink then
        [("googleMapLink", provider.settings.googleMapLink.getD "")] else [])
  ++ [ ("dateFormat", jsOrStr provider.settings.dateFormat "PPP"),
       ("timezone", provider.settings.timezone),
       ("customerTimezone", customerTimezone),
       ("currencyCode", provider.settings.currency) ]

/-- The best-effort Google Calendar block (actions.ts lines 120-135 /
262-276): on success attach truthy event id and meet link to the update;
failures are swallowed. -/
def applyCalendar (provider : Provider) (cal : CalendarOutcome) (bu : BookingUpdate) :
    BookingUpdate × Option String × List Effect :=
  if provider.googleCalendar then
    match cal with
    | .ok eventId meetLink =>
        let bu1 := if jsTruthyStr eventId then { bu with googleCalendarEventId := eventId } else bu
        let bu2 := if jsTruthyStr meetLink then { bu1 with googleMeetLink := meetLink } else bu1
        (bu2, if jsTruthyStr meetLink then meetLink else none,
          [Effect.createCalendarEvent provider.username])
    | .failed => (bu, none, [Effect.createCalendarEvent provider.username])
  else (bu, none, [])

/-- Result of `createBooking` (the redirect is modelled as a result value). -/
inductive CreateBookingResult where
  | serviceTypeError (messages : List String)
  | onlineOrder (order : RazorpayOrder) (bookingId : String)
      (confirmationParams : List (String × String))
  | redirectConfirmation (confirmationParams : List (String × String))
deriving DecidableEq

/-- `createBooking` (actions.ts lines 18-210), after schema validation, with
the provider already resolved (`getProviderByUsername` is an external store
read; a missing provider throws).  `enc` is `encodeURIComponent`. -/
def createBooking (enc : String → String) (provider? : Option Provider)
    (data : BookingData) (customerTimezone : String) (env : BookingEnv) :
    Except String (CreateBookingResult × List Effect) :=
  match provider? with
  | none => .error "Provider not found."
  | some provider =>
    if ¬ (provider.settings.serviceTypes.any
        (fun st => st.name == data.serviceType && st.enabled)) then
      .ok (.serviceTypeError ["This service type is not valid for this provider."], [])
    else
      let bookingDateTime := data.dateTime
      let serviceTypeSetting :=
        provider.settings.serviceTypes.find? (fun st => st.name == data.serviceType)
      let fullAddress := fullAddressOf serviceTypeSetting provider.settings data
      let isDoorstep := match serviceTypeSetting with
        | some s => s.id == "doorstep"
        | none => false
      let booking : NewBooking :=
        { customerName := data.customerName
          customerEmail := data.customerEmail
          customerPhone := data.countryCode ++ data.customerPhone
          serviceType := data.serviceType
          dateTime := bookingDateTime
          providerUsername := data.providerUsername
          address := jsOrUndef fullAddress
          flatHouseNo := if isDoorstep then some data.flatHouseNo else none
          landmark := if isDoorstep then data.landmark else none
          pincode := if isDoorstep then some data.pincode else none
          city := if isDoorstep then some data.city else none
          state := if isDoorstep then some data.state else none
          country := if isDoorstep then some data.country else none }
      let isPaidService := isPaidServiceOf serviceTypeSetting
      let params := confirmationParamsOf provider data customerTimezone fullAddress
      if isPaidService && provider.settings.onlinePaymentEnabled &&
          (data.paymentMethod == "online") then
        let price := match serviceTypeSetting with
          | some s => s.price.getD 0
          | none => 0
        .ok (.onlineOrder env.order env.bookingId params,
          [ .addBooking booking "Pending",
            .createRazorpayOrder (createRazorpayOrderOptions price "INR" env.nowMs),
            .updateBooking provider.username env.bookingId
              { payment := some { orderId := some env.order.id } } ])
      else
        let paymentDetails :=
          if isPaidService && provider.settings.payAfterServiceEnabled &&
              (data.paymentMethod == "later")
          then "To be paid after service." else "This is a free booking."
        let priceOr0 := match serviceTypeSetting with
          | some s => jsOrNat s.price 0
          | none => 0
        let bookingUpdate0 : BookingUpdate :=
          { status := some "Upcoming"
            payment := some { status := some "Pending", amount := some priceOr0 } }
        let calRes := applyCalendar provider env.calendar bookingUpdate0
        let artifacts := buildCalendarArtifacts enc provider.name data.serviceType
          fullAddress provider.settings.timezone provider.settings.slotDuration
          bookingDateTime
        let params2 := params
          ++ (match calRes.2.1 with
              | some m => [("googleMeetLink", m)]
              | none => [])
          ++ (if isPaidService && (data.paymentMethod == "later") then
                [("amountPaid", "0"), ("totalAmount", toString priceOr0)] else [])
        .ok (.redirectConfirmation params2,
          [ Effect.addBooking booking "Pending" ] ++ calRes.2.2 ++
          [ Effect.updateBooking provider.username env.bookingId calRes.1,
            Effect.addNotification provider.username
              ("New booking from " ++ data.customerName ++ " for " ++ data.serviceType ++ ".")
              "new_booking" "/bookings",
            Effect.sendBookingConfirmationEmail data.customerEmail paymentDetails artifacts,
            Effect.sendProviderBookingNotificationEmail provider.contactEmail paymentDetails ])

/-! ## Payment verification workflows -/

/-- The gateway callback payload. -/
structure PaymentResponse where
  razorpay_order_id : String
  razorpay_payment_id : String
  razorpay_signature : String
deriving DecidableEq

/-- Result object of the verification workflows. -/
structure VerifyResult where
  success : Bool
  error : Option String := none
  confirmationParams : List (String × String) := []
deriving DecidableEq

/-- `verifyBookingPayment` (actions.ts lines 212-363).  `hmacSha256Hex` is
node `crypto.createHmac('sha256', secret).update(body).digest('hex')`, an
external primitive; `keySecret` is the configured admin secret (`none`/empty
means unconfigured and throws); `booking?`/`provider?` are the store reads
inside the try block (either missing aborts with the catch-all failure). -/
def verifyBookingPayment (hmacSha256Hex : String → String → String)
    (enc : String → String) (keySecret : Option String)
    (providerUsername bookingId : String) (paymentResponse : PaymentResponse)
    (amount : Nat) (booking? : Option StoredBooking) (provider? : Option Provider)
    (cal : CalendarOutcome) : Except String (VerifyResult × List Effect) :=
  if ¬ jsTruthyStr keySecret then .error "Razorpay key secret is not configured."
  else
    let body := paymentResponse.razorpay_order_id ++ "|" ++ paymentResponse.razorpay_payment_id
    let expectedSignature := hmacSha256Hex (keySecret.getD "") body
    if expectedSignature ≠ paymentResponse.razorpay_signature then
      .ok ({ success := false, error := some "Invalid payment signature." }, [])
    else
      match booking?, provider? with
      | some booking, some provider =>
        let paymentData : PaymentInfo :=
          { orderId := some paymentResponse.razorpay_order_id
            paymentId := some paymentResponse.razorpay_payment_id
            amount := some amount
            status := some "Paid" }
        let bookingUpdate0 : BookingUpdate :=
          { status := some "Upcoming", payment := some paymentData }
        let calRes := applyCalendar provider cal bookingUpdate0
        let artifacts := buildCalendarArtifacts enc provider.name booking.serviceType
          booking.address provider.settings.timezone provider.settings.slotDuration
          booking.dateTime
        let paymentDetails := "Paid ₹" ++ toString amount ++ " Online"
        .ok ({ success := true
               confirmationParams := match calRes.2.1 with
                 | some m => [("googleMeetLink", m)]
                 | none => [] },
          calRes.2.2 ++
          [ Effect.updateBooking providerUsername bookingId calRes.1,
            Effect.createPaymentRecord
              { providerUsername := providerUsername, planId := "booking"
                amount := amount, currency := "INR"
                razorpay_payment_id := paymentResponse.razorpay_payment_id
                razorpay_order_id := paymentResponse.razorpay_order_id
                bookingId := some bookingId },
            Effect.addNotification provider.username
              ("New booking from " ++ booking.customerName ++ " for " ++ booking.serviceType ++ ".")
              "new_booking" "/bookings",
            Effect.sendBookingConfirmationEmail booking.customerEmail paymentDetails artifacts,
            Effect.sendProviderBookingNotificationEmail provider.contactEmail paymentDetails ])
      | _, _ => .ok ({ success := false, error := some "Failed to update booking after payment." }, [])

/-- `verifySubscriptionPaymentSignature` (actions.ts lines 365-390): a pure
signature check that performs no store mutation at all. -/
def verifySubscriptionPaymentSignature (hmacSha256Hex : String → String → String)
    (keySecret : Option String) (paymentResponse : PaymentResponse) :
    Except String VerifyResult :=
  if ¬ jsTruthyStr keySecret then .error "Razorpay key secret is not configured."
  else
    let body := paymentResponse.razorpay_order_id ++ "|" ++ paymentResponse.razorpay_payment_id
    let expectedSignature := hmacSha256Hex (keySecret.getD "") body
    if expectedSignature ≠ paymentResponse.razorpay_signature then
      .ok { success := false, error := some "Invalid payment signature." }
    else
      .ok { success := true }

/-! ## Subscription workflow (`updateProviderSubscription`) -/

/-- Payment details passed to `updateProviderSubscription`. -/
structure SubPaymentDetails where
  razorpay_payment_id : String
  razorpay_order_id : String
  amount : Option Nat := none
deriving DecidableEq

/-- `{success, error?}` result of the subscription and blocking workflows. -/
structure SubResult where
  success : Bool
  error : Option String := none
deriving DecidableEq

/-- `isRenewal` (actions.ts line 415): the current plan id and expiry are
truthy and the expiry is strictly in the future. -/
def renewalIsActive (provider : Provider) (now : JsDate) : Bool :=
  jsTruthyStr provider.planId &&
    (match provider.planExpiry with
     | none => false
     | some e => decide (JsDate.lt now e))

/-- `baseDateForExpiry` (actions.ts line 416). -/
def renewalBase (provider : Provider) (now : JsDate) : JsDate :=
  if renewalIsActive provider now then provider.planExpiry.getD now else now

/-- The switch on `plan.duration` (actions.ts lines 435-450). -/
def expiryByDuration (plan : Plan) (base : JsDate) : JsDate :=
  match plan.duration with
  | .monthly => base.addMonths1
  | .yearly => base.addYears1
  | .lifetime => lifetimeExpiry
  | .trial => base.addDays (jsOrNat plan.days 7)

/-- The admin notification message (actions.ts lines 418-428). -/
def subscriptionMessage (getPlan : String → Option Plan) (provider : Provider)
    (plan : Plan) (isRenewal : Bool) : String :=
  if isRenewal then
    match getPlan (provider.planId.getD "") with
    | some currentPlan =>
        if currentPlan.price < plan.price then
          provider.name ++ " has upgraded their plan to " ++ plan.name ++ "."
        else
          provider.name ++ " has renewed their " ++ plan.name ++ " plan."
    | none => provider.name ++ " has renewed their " ++ plan.name ++ " plan."
  else provider.name ++ " has subscribed to the " ++ plan.name ++ " plan."

/-- `updateProviderSubscription` (actions.ts lines 392-495).  `getPlan` and
the provider are store reads; the returned provider is the store state after
the run (the code persists `updateProvider` before the paid-plan id check, so
that mutation survives the catch-all failure).  The final re-fetch and
enrichment are external reads of the state returned here. -/
def updateProviderSubscription (getPlan : String → Option Plan)
    (provider? : Option Provider) (username planId : String)
    (paymentDetails : SubPaymentDetails) (now : JsDate) :
    SubResult × Option Provider × List Effect :=
  match getPlan planId with
  | none => ({ success := false, error := some "Plan not found" }, provider?, [])
  | some plan =>
    match provider? with
    | none => ({ success := false, error := some "Provider not found" }, none, [])
    | some provider =>
      if plan.duration = PlanDuration.trial ∧ provider.hasUsedTrial = true then
        ({ success := false
           error := some "You have already used your trial plan. Please choose a paid plan." },
         some provider, [])
      else
        let isRenewal := renewalIsActive provider now
        let baseDateForExpiry := renewalBase provider now
        let notificationMessage := subscriptionMessage getPlan provider plan isRenewal
        let newExpiryDate := expiryByDuration plan baseDateForExpiry
        let providerUpdated : Provider :=
          { provider with
            planId := some plan.id
            hasUsedTrial := provider.hasUsedTrial || plan.duration == PlanDuration.trial
            planExpiry := some newExpiryDate }
        let finishEffects := fun (payEffects : List Effect) =>
          [Effect.updateProvider username] ++ payEffects ++
          (if notificationMessage ≠ "" then
            [Effect.addNotification "admin" notificationMessage "general" "/admin/providers"]
           else []) ++
          [Effect.sendSubscriptionEmail provider.contactEmail, Effect.revalidate "/"]
        match paymentDetails.amount with
        | some amountPaid =>
          if 0 < amountPaid then
            if paymentDetails.razorpay_payment_id = "" ∨ paymentDetails.razorpay_order_id = "" then
              ({ success := false, error := some "Payment details are required for paid plans." },
               some providerUpdated, [Effect.updateProvider username])
            else
              ({ success := true }, some providerUpdated,
                finishEffects [Effect.createPaymentRecord
                  { providerUsername := username, planId := plan.id
                    amount := amountPaid, currency := "INR"
                    razorpay_payment_id := paymentDetails.razorpay_payment_id
                    razorpay_order_id := paymentDetails.razorpay_order_id }])
          else
            ({ success := true }, some providerUpdated, finishEffects [])
        | none => ({ success := true }, some providerUpdated, finishEffects [])

/-! ## Slot/date blocking workflows -/

/-- JS `[...new Set(l)]`: deduplicate keeping the first occurrence of each
element, in order. -/
def jsSetDedup : List String → List String
  | [] => []
  | x :: xs => x :: jsSetDedup (xs.filter (fun y => y != x))
termination_by l => l.length
decreasing_by
  simp only [List.length_cons]
  exact Nat.lt_succ_of_le (List.length_filter_le _ _)

/-- `updateBlockedSlots` (actions.ts lines 589-609).  Blocking appends the
slot to the stored list unconditionally; unblocking filters it out. -/
def updateBlockedSlots (provider? : Option Provider) (username slotISO : String)
    (shouldBlock : Bool) : SubResult × Option Provider × List Effect :=
  match provider? with
  | none => ({ success := false, error := some "Provider not found" }, none, [])
  | some provider =>
    let currentBlockedSlots := provider.settings.blockedSlots.getD []
    let newBlockedSlots :=
      if shouldBlock then currentBlockedSlots ++ [slotISO]
      else currentBlockedSlots.filter (fun s => s != slotISO)
    let providerUpdated :=
      { provider with settings := { provider.settings with blockedSlots := some newBlockedSlots } }
    ({ success := true }, some providerUpdated,
     [Effect.updateProvider username, Effect.revalidate "/(provider-dashboard)/slot-management"])

/-- `updateBlockedDates` (actions.ts lines 612-633).  Blocking unions through
a JS `Set`; unblocking filters out the given dates. -/
def updateBlockedDates (provider? : Option Provider) (username : String)
    (dates : List String) (shouldBlock : Bool) :
    SubResult × Option Provider × List Effect :=
  match provider? with
  | none => ({ success := false, error := some "Provider not found" }, none, [])
  | some provider =>
    let currentBlockedDates := provider.settings.blockedDates.getD []
    let newBlockedDates :=
      if shouldBlock then jsSetDedup (currentBlockedDates ++ dates)
      else currentBlockedDates.filter (fun d => !(dates.contains d))
    let providerUpdated :=
      { provider with settings := { provider.settings with blockedDates := some newBlockedDates } }
    ({ success := true }, some providerUpdated,
     [Effect.updateProvider username, Effect.revalidate "/(provider-dashboard)/slot-management"])

/-! ## Concrete sample data for closed checks -/

/-- A doorstep service priced 500 with price enabled. -/
def doorstepService : ServiceType :=
  { id := "doorstep", name := "Home Repair", enabled := true
    priceEnabled := true, price := some 500 }

/-- Concrete provider settings (timezone Asia/Kolkata, pay-after enabled,
online payment disabled, default slot duration). -/
def sampleSettings : ProviderSettings :=
  { serviceTypes := [doorstepService]
    onlinePaymentEnabled := false
    payAfterServiceEnabled := true
    timezone := "Asia/Kolkata"
    dateFormat := none
    currency := "INR"
    shopAddress := none
    googleMapLink := none
    slotDuration := none
    blockedSlots := some ["2024-05-01T10:00:00.000Z"]
    blockedDates := some ["2024-05-02"] }

/-- A concrete provider with no subscription and no calendar integration. -/
def sampleProvider : Provider :=
  { username := "asha", name := "Asha", contactEmail := "asha@example.com"
    planId := none, planExpiry := none, hasUsedTrial := false
    googleCalendar := false, settings := sampleSettings }

/-- The sample provider with online payment enabled. -/
def onlineProvider : Provider :=
  { sampleProvider with settings := { sampleSettings with onlinePaymentEnabled := true } }

/-- A concrete parsed booking submission for the doorstep service. -/
def sampleBookingData : BookingData :=
  { customerName := "Ravi", customerEmail := "ravi@example.com"
    countryCode := "+91", customerPhone := "9876543210"
    serviceType := "Home Repair"
    dateTime := ⟨2024, 1, 15, 36000000⟩
    providerUsername := "asha"
    paymentMethod := "later"
    flatHouseNo := "123", landmark := some "Near Park"
    pincode := "400001", city := "Mumbai", state := "MH", country := "India" }

/-- A concrete environment for one `createBooking` run. -/
def sampleEnv : BookingEnv :=
  { bookingId := "b1", order := { id := "order_1" }, calendar := .failed, nowMs := 1700000000000 }

/-- A concrete monthly plan. -/
def monthlyPlan : Plan :=
  { id := "monthly", name := "Monthly", price := 299, duration := .monthly, days := none }

/-- A concrete trial plan. -/
def trialPlan : Plan :=
  { id := "trial", name := "Trial", price := 0, duration := .trial, days := none }

/-- A concrete plan catalog. -/
def samplePlans : String → Option Plan := fun i =>
  if i = "monthly" then some monthlyPlan
  else if i = "trial" then some trialPlan
  else none

/-- Concrete subscription payment details for a paid plan. -/
def samplePayment : SubPaymentDetails :=
  { razorpay_payment_id := "pay_1", razorpay_order_id := "order_1", amount := some 299 }

/-- The sample submission with the online payment method chosen. -/
def onlineBookingData : BookingData := { sampleBookingData with paymentMethod := "online" }

/-- Payment details of a zero-amount (trial) application. -/
def noPayment : SubPaymentDetails :=
  { razorpay_payment_id := "", razorpay_order_id := "", amount := none }

/-- The sample provider after consuming a trial. -/
def usedTrialProvider : Provider := { sampleProvider with hasUsedTrial := true }

/-- The sample provider after a first monthly purchase on 2024-01-15. -/
def renewedProvider1 : Provider :=
  { sampleProvider with planId := some "monthly", planExpiry := some ⟨2024, 2, 15, 0⟩ }

/-- The provider after a second monthly renewal on 2024-02-01, before the
first expiry lapsed. -/
def renewedProvider2 : Provider :=
  { sampleProvider with planId := some "monthly", planExpiry := some ⟨2024, 3, 15, 0⟩ }

/-- The sample provider after re-blocking its already blocked slot: the
stored list now holds a duplicate entry. -/
def duplicatedSlotProvider : Provider :=
  { sampleProvider with settings := { sampleSettings with
      blockedSlots := some ["2024-05-01T10:00:00.000Z", "2024-05-01T10:00:00.000Z"] } }

/-- A concrete HMAC stand-in used only to instantiate generic theorems. -/
def demoHmac : String → String → String := fun key body => key ++ ":" ++ body

/-- Identity stand-in for `encodeURIComponent` in concrete checks. -/
def demoEnc : String → String := fun s => s

/-! ## Date-order lemmas -/

theorem JsDate.le_refl (d : JsDate) : JsDate.le d d := by
  unfold JsDate.le; omega

theorem JsDate.le_of_lt {a b : JsDate} (h : JsDate.lt a b) : JsDate.le a b := by
  unfold JsDate.lt at h; unfold JsDate.le; omega

theorem JsDate.le_trans {a b c : JsDate} (h1 : JsDate.le a b) (h2 : JsDate.le b c) :
    JsDate.le a c := by
  unfold JsDate.le at h1 h2 ⊢; omega

theorem JsDate.lt_addMonths1 (d : JsDate) : JsDate.lt d d.addMonths1 := by
  unfold JsDate.addMonths1
  split <;> (unfold JsDate.lt; simp; try omega)

theorem JsDate.lt_addYears1 (d : JsDate) : JsDate.lt d d.addYears1 := by
  unfold JsDate.addYears1
  unfold JsDate.lt; simp

theorem JsDate.le_nextDay (d : JsDate) : JsDate.le d d.nextDay := by
  unfold JsDate.nextDay
  split
  · unfold JsDate.le; simp
  · split <;> (unfold JsDate.le; simp; try omega)

theorem JsDate.le_addDays (d : JsDate) (n : Nat) : JsDate.le d (d.addDays n) := by
  unfold JsDate.addDays
  induction n generalizing d with
  | zero => exact JsDate.le_refl d
  | succ k ih => exact JsDate.le_trans (JsDate.le_nextDay d) (ih d.nextDay)

/-! ## Dedup lemmas -/

theorem mem_jsSetDedup (a : String) (l : List String) : a ∈ jsSetDedup l ↔ a ∈ l := by
  induction l using jsSetDedup.induct with
  | case1 => simp [jsSetDedup]
  | case2 x xs ih =>
    simp only [jsSetDedup, List.mem_cons, ih, List.mem_filter, bne_iff_ne, ne_eq]
    by_cases hax : a = x <;> simp [hax]

theorem jsSetDedup_nodup (l : List String) : (jsSetDedup l).Nodup := by
  induction l using jsSetDedup.induct with
  | case1 => simp [jsSetDedup]
  | case2 x xs ih =>
    simp only [jsSetDedup, List.nodup_cons]
    refine ⟨?_, ih⟩
    rw [mem_jsSetDedup]
    simp [List.mem_filter]

theorem jsSetDedup_append_of_subset (cur : List String) :
    ∀ (dates : List String), cur.Nodup → (∀ x ∈ dates, x ∈ cur) →
    jsSetDedup (cur ++ dates) = cur := by
  induction cur with
  | nil =>
    intro dates _ hsub
    have hd : dates = [] := List.eq_nil_iff_forall_not_mem.mpr
      (fun x hx => by simpa using hsub x hx)
    simp [hd, jsSetDedup]
  | cons x xs ih =>
    intro dates hnd hsub
    have hx : x ∉ xs := (List.nodup_cons.mp hnd).1
    have hxs : xs.Nodup := (List.nodup_cons.mp hnd).2
    rw [List.cons_append]
    simp only [jsSetDedup]
    have hfl : (xs ++ dates).filter (fun y => y != x) =
        xs ++ dates.filter (fun y => y != x) := by
      rw [List.filter_append]
      congr 1
      apply List.filter_eq_self.mpr
      intro y hy
      simp only [bne_iff_ne, ne_eq, decide_eq_true_eq]
      intro h
      exact hx (h ▸ hy)
    rw [hfl, ih (dates.filter (fun y => y != x)) hxs ?_]
    intro y hy
    simp only [List.mem_filter, bne_iff_ne, ne_eq, decide_eq_true_eq] at hy
    rcases List.mem_cons.mp (hsub y hy.1) with h | h
    · exact absurd h hy.2
    · exact h

/-! ## Subscription workflow lemmas -/

/-- On a successful `updateProviderSubscription` run the persisted provider
is the input with exactly plan id, trial flag and recomputed expiry replaced,
and the trial-rejection guard did not fire. -/
theorem updateProviderSubscription_success_state (getPlan : String → Option Plan)
    (provider : Provider) (username planId : String) (pd : SubPaymentDetails)
    (now : JsDate) (plan : Plan) (hplan : getPlan planId = some plan)
    (hsucc : (updateProviderSubscription getPlan (some provider) username planId pd now).1.success = true) :
    (updateProviderSubscription getPlan (some provider) username planId pd now).2.1 =
      some { provider with
        planId := some plan.id
        hasUsedTrial := provider.hasUsedTrial || plan.duration == PlanDuration.trial
        planExpiry := some (expiryByDuration plan (renewalBase provider now)) } ∧
    ¬ (plan.duration = PlanDuration.trial ∧ provider.hasUsedTrial = true) := by
  by_cases htrial : plan.duration = PlanDuration.trial ∧ provider.hasUsedTrial = true
  · simp [updateProviderSubscription, hplan, htrial] at hsucc
  · rcases hamt : pd.amount with _ | a
    · simp [updateProviderSubscription, hplan, htrial, hamt]
    · by_cases hpos : 0 < a
      · by_cases hids : pd.razorpay_payment_id = "" ∨ pd.razorpay_order_id = ""
        · simp [updateProviderSubscription, hplan, htrial, hamt, hpos, hids] at hsucc
        · simp [updateProviderSubscription, hplan, htrial, hamt, hpos, hids]
      · simp [updateProviderSubscription, hplan, htrial, hamt, hpos]

/-- A second trial application is rejected outright: the exact error result,
the provider unchanged, and no effects. -/
theorem updateProviderSubscription_trial_reject (getPlan : String → Option Plan)
    (provider : Provider) (username planId : String) (pd : SubPaymentDetails)
    (now : JsDate) (plan : Plan) (hplan : getPlan planId = some plan)
    (hdur : plan.duration = PlanDuration.trial) (hused : provider.hasUsedTrial = true) :
    updateProviderSubscription getPlan (some provider) username planId pd now =
      ({ success := false
         error := some "You have already used your trial plan. Please choose a paid plan." },
       some provider, []) := by
  simp [updateProviderSubscription, hplan, hdur, hused]

/-- Every run leaves the provider either untouched or replaced by the single
update record the workflow builds. -/
theorem updateProviderSubscription_state_shape (getPlan : String → Option Plan)
    (provider : Provider) (username planId : String) (pd : SubPaymentDetails)
    (now : JsDate) :
    (updateProviderSubscription getPlan (some provider) username planId pd now).2.1 = some provider ∨
    ∃ plan, getPlan planId = some plan ∧
      (updateProviderSubscription getPlan (some provider) username planId pd now).2.1 =
        some { provider with
          planId := some plan.id
          hasUsedTrial := provider.hasUsedTrial || plan.duration == PlanDuration.trial
          planExpiry := some (expiryByDuration plan (renewalBase provider now)) } := by
  rcases hplan : getPlan planId with _ | plan
  · left; simp [updateProviderSubscription, hplan]
  · by_cases htrial : plan.duration = PlanDuration.trial ∧ provider.hasUsedTrial = true
    · left; simp [updateProviderSubscription, hplan, htrial]
    · right
      refine ⟨plan, rfl, ?_⟩
      rcases hamt : pd.amount with _ | a
      · simp [updateProviderSubscription, hplan, htrial, hamt]
      · by_cases hpos : 0 < a
        · by_cases hids : pd.razorpay_payment_id = "" ∨ pd.razorpay_order_id = ""
          · simp [updateProviderSubscription, hplan, htrial, hamt, hpos, hids]
          · simp [updateProviderSubscription, hplan, htrial, hamt, hpos, hids]
        · simp [updateProviderSubscription, hplan, htrial, hamt, hpos]

/-- When the stored plan id is truthy and the stored expiry is strictly in
the future, `renewalBase` is that stored expiry. -/
theorem renewalBase_of_active (p : Provider) (now e : JsDate) (pid : String)
    (hpid : p.planId = some pid) (hne : pid ≠ "") (hpe : p.planExpiry = some e)
    (hlt : JsDate.lt now e) : renewalBase p now = e := by
  simp [renewalBase, renewalIsActive, jsTruthyStr, hpid, hpe, bne_iff_ne, hne, hlt]

/-! ## Claim C2 -/

/-- **C2**: on every successful `updateProviderSubscription` call the new
`planExpiry` equals the duration-class function applied to the base date
(`renewalBase`: the provider's existing expiry when the stored plan id is
truthy and the expiry is strictly in the future, otherwise now): monthly adds
one month, yearly one year, trial adds `plan.days` (default 7) days, and
lifetime is the fixed far-future sentinel 9999-12-31. -/
theorem subscription_expiry_formula_c2 (getPlan : String → Option Plan)
    (provider : Provider) (username planId : String) (pd : SubPaymentDetails)
    (now : JsDate) (plan : Plan) (hplan : getPlan planId = some plan)
    (hsucc : (updateProviderSubscription getPlan (some provider) username planId pd now).1.success = true) :
    ∃ p, (updateProviderSubscription getPlan (some provider) username planId pd now).2.1 = some p ∧
      p.planExpiry = some (match plan.duration with
        | PlanDuration.monthly => (renewalBase provider now).addMonths1
        | PlanDuration.yearly => (renewalBase provider now).addYears1
        | PlanDuration.lifetime => lifetimeExpiry
        | PlanDuration.trial => (renewalBase provider now).addDays (jsOrNat plan.days 7)) := by
  obtain ⟨hstate, -⟩ := updateProviderSubscription_success_state getPlan provider
    username planId pd now plan hplan hsucc
  exact ⟨_, hstate, rfl⟩

/-- Witness for C2 at the spec's example: a monthly plan bought by a provider
with no existing subscription on 2024-01-15 yields expiry 2024-02-15. -/
theorem subscription_expiry_formula_c2_witness :
    (updateProviderSubscription samplePlans (some sampleProvider) "asha" "monthly"
        samplePayment ⟨2024, 1, 15, 0⟩).1.success = true ∧
    (∃ p, (updateProviderSubscription samplePlans (some sampleProvider) "asha" "monthly"
        samplePayment ⟨2024, 1, 15, 0⟩).2.1 = some p ∧
      p.planExpiry = some ⟨2024, 2, 15, 0⟩) := by
  have hsucc : (updateProviderSubscription samplePlans (some sampleProvider) "asha" "monthly"
      samplePayment ⟨2024, 1, 15, 0⟩).1.success = true := by decide
  refine ⟨hsucc, ?_⟩
  obtain ⟨p, hp, he⟩ := subscription_expiry_formula_c2 samplePlans sampleProvider "asha"
    "monthly" samplePayment ⟨2024, 1, 15, 0⟩ monthlyPlan (by decide) hsucc
  refine ⟨p, hp, ?_⟩
  rw [he]
  decide

/-! ## Claim C7 -/

/-- **C7**: across two consecutive successful `updateProviderSubscription`
applications of the same plan, the second made before the first's resulting
expiry lapsed, the resulting expiry never shrinks: `e1 ≤ e2`. -/
theorem subscription_expiry_monotone_c7 (getPlan : String → Option Plan)
    (p0 p1 p2 : Provider) (username : String) (plan : Plan)
    (pd1 pd2 : SubPaymentDetails) (now1 now2 e1 e2 : JsDate)
    (hplan : getPlan plan.id = some plan) (hid : plan.id ≠ "")
    (h1succ : (updateProviderSubscription getPlan (some p0) username plan.id pd1 now1).1.success = true)
    (hp1 : (updateProviderSubscription getPlan (some p0) username plan.id pd1 now1).2.1 = some p1)
    (h2succ : (updateProviderSubscription getPlan (some p1) username plan.id pd2 now2).1.success = true)
    (hp2 : (updateProviderSubscription getPlan (some p1) username plan.id pd2 now2).2.1 = some p2)
    (he1 : p1.planExpiry = some e1) (he2 : p2.planExpiry = some e2)
    (hlapse : JsDate.lt now2 e1) :
    JsDate.le e1 e2 := by
  obtain ⟨hstate1, -⟩ := updateProviderSubscription_success_state getPlan p0
    username plan.id pd1 now1 plan hplan h1succ
  rw [hstate1] at hp1
  replace hp1 := Option.some.inj hp1
  have hpid1 : p1.planId = some plan.id := by rw [← hp1]
  have hused1 : p1.hasUsedTrial = (p0.hasUsedTrial || plan.duration == PlanDuration.trial) := by
    rw [← hp1]
  have hE1 : expiryByDuration plan (renewalBase p0 now1) = e1 := by
    have h := he1
    rw [← hp1] at h
    exact Option.some.inj h
  obtain ⟨hstate2, hnotrej2⟩ := updateProviderSubscription_success_state getPlan p1
    username plan.id pd2 now2 plan hplan h2succ
  rw [hstate2] at hp2
  replace hp2 := Option.some.inj hp2
  have hE2 : expiryByDuration plan (renewalBase p1 now2) = e2 := by
    have h := he2
    rw [← hp2] at h
    exact Option.some.inj h
  have hbase2 : renewalBase p1 now2 = e1 :=
    renewalBase_of_active p1 now2 e1 plan.id hpid1 hid he1 hlapse
  rw [hbase2] at hE2
  rcases hdur : plan.duration with _ | _ | _ | _
  case trial =>
    refine absurd ⟨hdur, ?_⟩ hnotrej2
    rw [hused1, hdur]
    simp
  case monthly =>
    rw [← hE2]
    simp only [expiryByDuration, hdur]
    exact JsDate.le_of_lt (JsDate.lt_addMonths1 e1)
  case yearly =>
    rw [← hE2]
    simp only [expiryByDuration, hdur]
    exact JsDate.le_of_lt (JsDate.lt_addYears1 e1)
  case lifetime =>
    rw [← hE2]
    simp only [expiryByDuration, hdur]
    have hl : lifetimeExpiry = e1 := by
      rw [← hE1]
      simp only [expiryByDuration, hdur]
    rw [← hl]
    exact JsDate.le_refl lifetimeExpiry

/-- Witness for C7: two concrete monthly renewals (2024-01-15 then
2024-02-01) give expiries 2024-02-15 then 2024-03-15, and the order holds. -/
theorem subscription_expiry_monotone_c7_witness :
    (updateProviderSubscription samplePlans (some sampleProvider) "asha" "monthly"
        samplePayment ⟨2024, 1, 15, 0⟩).2.1 = some renewedProvider1 ∧
    (updateProviderSubscription samplePlans (some renewedProvider1) "asha" "monthly"
        samplePayment ⟨2024, 2, 1, 0⟩).2.1 = some renewedProvider2 ∧
    JsDate.le ⟨2024, 2, 15, 0⟩ ⟨2024, 3, 15, 0⟩ := by
  refine ⟨by decide, by decide, ?_⟩
  exact subscription_expiry_monotone_c7 samplePlans sampleProvider renewedProvider1
    renewedProvider2 "asha" monthlyPlan samplePayment samplePayment
    ⟨2024, 1, 15, 0⟩ ⟨2024, 2, 1, 0⟩ ⟨2024, 2, 15, 0⟩ ⟨2024, 3, 15, 0⟩
    (by decide) (by decide) (by decide) (by decide) (by decide) (by decide)
    (by decide) (by decide) (by decide)

/-! ## Claim C8 -/

/-- **C8**: `hasUsedTrial` is monotone.  (1) No branch of
`updateProviderSubscription` ever resets a true `hasUsedTrial`;
(2) applying a trial plan to a provider who has not used one sets the flag to
true in every branch that persists; (3) a second trial application is
rejected with the exact error, leaving the provider — hence the true flag —
untouched. -/
theorem has_used_trial_monotone_c8 (getPlan : String → Option Plan)
    (provider : Provider) (username planId : String) (pd : SubPaymentDetails)
    (now : JsDate) :
    (∀ p, provider.hasUsedTrial = true →
      (updateProviderSubscription getPlan (some provider) username planId pd now).2.1 = some p →
      p.hasUsedTrial = true) ∧
    (∀ plan p, getPlan planId = some plan → plan.duration = PlanDuration.trial →
      provider.hasUsedTrial = false →
      (updateProviderSubscription getPlan (some provider) username planId pd now).2.1 = some p →
      p.hasUsedTrial = true) ∧
    (∀ plan, getPlan planId = some plan → plan.duration = PlanDuration.trial →
      provider.hasUsedTrial = true →
      updateProviderSubscription getPlan (some provider) username planId pd now =
        ({ success := false
           error := some "You have already used your trial plan. Please choose a paid plan." },
         some provider, [])) := by
  refine ⟨?_, ?_, ?_⟩
  · intro p hused hp
    rcases updateProviderSubscription_state_shape getPlan provider username planId pd now with
      h | ⟨plan, _, h⟩ <;> rw [h] at hp <;> replace hp := Option.some.inj hp
    · rw [← hp]; exact hused
    · rw [← hp]; simp [hused]
  · intro plan p hplan hdur hused hp
    have htrial : ¬ (plan.duration = PlanDuration.trial ∧ provider.hasUsedTrial = true) := by
      simp [hused]
    rcases hamt : pd.amount with _ | a
    · simp only [updateProviderSubscription, hplan, htrial, if_false, hamt,
        Option.some.injEq] at hp
      rw [← hp]; simp [hused, hdur]
    · by_cases hpos : 0 < a
      · by_cases hids : pd.razorpay_payment_id = "" ∨ pd.razorpay_order_id = ""
        · simp only [updateProviderSubscription, hplan, htrial, if_false, hamt] at hp
          simp only [hpos, if_true, hids, Option.some.injEq] at hp
          rw [← hp]; simp [hused, hdur]
        · simp only [updateProviderSubscription, hplan, htrial, if_false, hamt] at hp
          simp only [hpos, if_true, hids, if_false, Option.some.injEq] at hp
          rw [← hp]; simp [hused, hdur]
      · simp only [updateProviderSubscription, hplan, htrial, if_false, hamt] at hp
        simp only [hpos, if_false, Option.some.injEq] at hp
        rw [← hp]; simp [hused, hdur]
  · intro plan hplan hdur hused
    exact updateProviderSubscription_trial_reject getPlan provider username planId pd now
      plan hplan hdur hused

/-- Witness for C8: the concrete used-trial provider is rejected with the
exact error and its flag stays true. -/
theorem has_used_trial_monotone_c8_witness :
    updateProviderSubscription samplePlans (some usedTrialProvider) "asha" "trial"
        noPayment ⟨2024, 1, 15, 0⟩ =
      ({ success := false
         error := some "You have already used your trial plan. Please choose a paid plan." },
       some usedTrialProvider, []) ∧
    usedTrialProvider.hasUsedTrial = true := by
  refine ⟨?_, by decide⟩
  exact (has_used_trial_monotone_c8 samplePlans usedTrialProvider "asha" "trial"
    noPayment ⟨2024, 1, 15, 0⟩).2.2 trialPlan (by decide) (by decide) (by decide)

/-! ## Booking workflow lemmas -/

/-- The calendar block only ever touches the calendar fields of the update. -/
theorem applyCalendar_preserves (provider : Provider) (cal : CalendarOutcome)
    (bu : BookingUpdate) :
    (applyCalendar provider cal bu).1.status = bu.status ∧
    (applyCalendar provider cal bu).1.payment = bu.payment := by
  unfold applyCalendar
  split
  · rcases cal with ⟨eventId, meetLink⟩ | _
    · by_cases h1 : jsTruthyStr eventId = true <;> by_cases h2 : jsTruthyStr meetLink = true <;>
        simp [h1, h2]
    · simp
  · simp

/-- The calendar block emits no booking update, no gateway order, and no
notification or email. -/
theorem applyCalendar_effects_inert (provider : Provider) (cal : CalendarOutcome)
    (bu : BookingUpdate) :
    (applyCalendar provider cal bu).2.2.filter Effect.isUpdateBooking = [] ∧
    (applyCalendar provider cal bu).2.2.filter Effect.isCreateOrder = [] ∧
    ∀ e ∈ (applyCalendar provider cal bu).2.2, e.isNotificationOrEmail = false := by
  unfold applyCalendar
  split
  · rcases cal with ⟨eventId, meetLink⟩ | _ <;>
      simp [Effect.isUpdateBooking, Effect.isCreateOrder, Effect.isNotificationOrEmail]
  · simp

/-- The assembled doorstep address is never the empty string. -/
theorem doorstepAddress_ne_empty (d : BookingData) : doorstepAddress d ≠ "" := by
  intro h
  have hlen := congrArg String.length h
  have h2 : String.length ", " = 2 := rfl
  have h3 : String.length " - " = 3 := rfl
  have h0 : String.length "" = 0 := rfl
  simp only [doorstepAddress, String.length_append, h2, h3, h0] at hlen
  omega

/-- The code's `price || 0` agrees with `Option.getD 0`. -/
theorem jsOrNat_zero_getD (o : Option Nat) : jsOrNat o 0 = o.getD 0 := by
  rcases o with _ | k
  · rfl
  · rcases k with _ | k <;> rfl

/-! ## Claim C3 -/

/-- **C3**: a valid booking submission on the non-online path (free service,
or pay-later chosen) yields a redirect, a booking update to status `Upcoming`
with payment `{status: Pending, amount: price or 0}`, and the booking record
added with the doorstep address assembled as
`"<flat>, <landmark>, <city>, <state> - <pincode>, <country>"`. -/
theorem booking_non_online_upcoming_c3 (enc : String → String) (provider : Provider)
    (data : BookingData) (customerTimezone : String) (env : BookingEnv)
    (st : ServiceType)
    (hfind : provider.settings.serviceTypes.find? (fun s => s.name == data.serviceType) = some st)
    (hvalid : provider.settings.serviceTypes.any
      (fun s => s.name == data.serviceType && s.enabled) = true)
    (hpath : isPaidServiceOf (some st) = false ∨ data.paymentMethod = "later") :
    ∃ effs ps u nb,
      createBooking enc (some provider) data customerTimezone env =
        .ok (.redirectConfirmation ps, effs) ∧
      effs.filter Effect.isUpdateBooking =
        [Effect.updateBooking provider.username env.bookingId u] ∧
      u.status = some "Upcoming" ∧
      u.payment = some { status := some "Pending", amount := some (st.price.getD 0) } ∧
      effs.head? = some (Effect.addBooking nb "Pending") ∧
      (st.id = "doorstep" → nb.address = some (doorstepAddress data)) := by
  have hcond : (isPaidServiceOf (some st) && provider.settings.onlinePaymentEnabled &&
      (data.paymentMethod == "online")) = false := by
    rcases hpath with hfree | hlater
    · simp [hfree]
    · have hm : (data.paymentMethod == "online") = false := by
        rw [hlater]; decide
      simp [hm]
  simp only [createBooking, hfind, hvalid, hcond]
  simp only [not_true, if_false, Bool.false_eq_true, reduceIte]
  refine ⟨_, _,
    (applyCalendar provider env.calendar
      { status := some "Upcoming"
        payment := some { amount := some (jsOrNat st.price 0), status := some "Pending" } }).1,
    { customerName := data.customerName
      customerEmail := data.customerEmail
      customerPhone := data.countryCode ++ data.customerPhone
      serviceType := data.serviceType
      dateTime := data.dateTime
      providerUsername := data.providerUsername
      address := jsOrUndef (fullAddressOf (some st) provider.settings data)
      flatHouseNo := if st.id == "doorstep" then some data.flatHouseNo else none
      landmark := if st.id == "doorstep" then data.landmark else none
      pincode := if st.id == "doorstep" then some data.pincode else none
      city := if st.id == "doorstep" then some data.city else none
      state := if st.id == "doorstep" then some data.state else none
      country := if st.id == "doorstep" then some data.country else none },
    rfl, ?_, ?_, ?_, ?_, ?_⟩
  · simp [List.filter_cons, List.filter_append, Effect.isUpdateBooking,
      (applyCalendar_effects_inert provider env.calendar _).1]
  · exact (applyCalendar_preserves provider env.calendar _).1
  · rw [(applyCalendar_preserves provider env.calendar _).2, jsOrNat_zero_getD]
  · simp
  · intro hds
    simp [fullAddressOf, hds, jsOrUndef, doorstepAddress_ne_empty data]

/-- Witness for C3 at the spec's example: a ₹500 doorstep service booked with
"pay later"; the update is `Upcoming`/`{Pending, 500}` and the address is
assembled in the documented format. -/
theorem booking_non_online_upcoming_c3_witness :
    (isPaidServiceOf (some doorstepService) = false ∨ sampleBookingData.paymentMethod = "later") ∧
    doorstepAddress sampleBookingData = "123, Near Park, Mumbai, MH - 400001, India" ∧
    (∃ effs ps u nb,
      createBooking demoEnc (some sampleProvider) sampleBookingData "UTC" sampleEnv =
        .ok (.redirectConfirmation ps, effs) ∧
      effs.filter Effect.isUpdateBooking = [Effect.updateBooking "asha" "b1" u] ∧
      u.status = some "Upcoming" ∧
      u.payment = some { status := some "Pending", amount := some 500 } ∧
      effs.head? = some (Effect.addBooking nb "Pending") ∧
      (doorstepService.id = "doorstep" →
        nb.address = some (doorstepAddress sampleBookingData))) := by
  refine ⟨Or.inr rfl, by decide, ?_⟩
  exact booking_non_online_upcoming_c3 demoEnc sampleProvider sampleBookingData "UTC"
    sampleEnv doorstepService (by decide) (by decide) (Or.inr rfl)

/-! ## Claim C4 -/

/-- **C4**: an online-payable submission (positive enabled price, provider
online payment on, customer chose online) returns the order descriptor with
the booking id, performs exactly the add-as-Pending, create-order and
attach-order-id effects — the order request has amount `price * 100` and
currency INR, no update touches the status, and no notification or email is
sent. -/
theorem booking_online_pending_order_c4 (enc : String → String) (provider : Provider)
    (data : BookingData) (customerTimezone : String) (env : BookingEnv)
    (st : ServiceType)
    (hfind : provider.settings.serviceTypes.find? (fun s => s.name == data.serviceType) = some st)
    (hvalid : provider.settings.serviceTypes.any
      (fun s => s.name == data.serviceType && s.enabled) = true)
    (hpaid : isPaidServiceOf (some st) = true)
    (honline : provider.settings.onlinePaymentEnabled = true)
    (hmethod : data.paymentMethod = "online") :
    ∃ ps nb effs,
      createBooking enc (some provider) data customerTimezone env =
        .ok (.onlineOrder env.order env.bookingId ps, effs) ∧
      effs = [ Effect.addBooking nb "Pending",
        Effect.createRazorpayOrder (createRazorpayOrderOptions (st.price.getD 0) "INR" env.nowMs),
        Effect.updateBooking provider.username env.bookingId
          { payment := some { orderId := some env.order.id } } ] ∧
      (createRazorpayOrderOptions (st.price.getD 0) "INR" env.nowMs).amount =
        st.price.getD 0 * 100 ∧
      (createRazorpayOrderOptions (st.price.getD 0) "INR" env.nowMs).currency = "INR" ∧
      (∀ e ∈ effs, e.isNotificationOrEmail = false) ∧
      (∀ u pu bid, Effect.updateBooking pu bid u ∈ effs → u.status = none) := by
  have hcond : (isPaidServiceOf (some st) && provider.settings.onlinePaymentEnabled &&
      (data.paymentMethod == "online")) = true := by
    have hm : (data.paymentMethod == "online") = true := by rw [hmethod]; decide
    simp [hpaid, honline, hm]
  simp only [createBooking, hfind, hvalid, hcond]
  simp only [not_true, if_false, reduceIte]
  refine ⟨_, _, _, rfl, rfl, rfl, rfl, ?_, ?_⟩
  · simp [Effect.isNotificationOrEmail]
  · intro u pu bid hmem
    simp only [List.mem_cons, List.not_mem_nil, or_false] at hmem
    rcases hmem with h | h | h
    · exact absurd h (by simp)
    · exact absurd h (by simp)
    · rw [(Effect.updateBooking.inj h).2.2]

/-- Witness for C4: the concrete online-enabled provider with the ₹500
service and the online method; the order request carries amount 50000. -/
theorem booking_online_pending_order_c4_witness :
    ∃ ps nb effs,
      createBooking demoEnc (some onlineProvider) onlineBookingData "UTC" sampleEnv =
        .ok (.onlineOrder { id := "order_1" } "b1" ps, effs) ∧
      effs = [ Effect.addBooking nb "Pending",
        Effect.createRazorpayOrder (createRazorpayOrderOptions 500 "INR" 1700000000000),
        Effect.updateBooking "asha" "b1" { payment := some { orderId := some "order_1" } } ] ∧
      (createRazorpayOrderOptions 500 "INR" 1700000000000).amount = 50000 ∧
      (createRazorpayOrderOptions 500 "INR" 1700000000000).currency = "INR" ∧
      (∀ e ∈ effs, e.isNotificationOrEmail = false) ∧
      (∀ u pu bid, Effect.updateBooking pu bid u ∈ effs → u.status = none) := by
  exact booking_online_pending_order_c4 demoEnc onlineProvider onlineBookingData "UTC"
    sampleEnv doorstepService (by decide) (by decide) (by decide) (by decide) (by decide)

/-! ## Claim C9 -/

/-- **C9**: when the customer chose the online method for a positively priced
service but the provider's `onlinePaymentEnabled` is false, `createBooking`
takes the non-online branch: redirect, update to `Upcoming` with payment
`{Pending, price}`, both emails sent immediately (with the free-booking
payment caption, since the pay-later caption requires the `later` method),
and no gateway order created — the online choice is silently downgraded. -/
theorem online_choice_downgrade_c9 (enc : String → String) (provider : Provider)
    (data : BookingData) (customerTimezone : String) (env : BookingEnv)
    (st : ServiceType)
    (hfind : provider.settings.serviceTypes.find? (fun s => s.name == data.serviceType) = some st)
    (hvalid : provider.settings.serviceTypes.any
      (fun s => s.name == data.serviceType && s.enabled) = true)
    (hpaid : isPaidServiceOf (some st) = true)
    (honline : provider.settings.onlinePaymentEnabled = false)
    (hmethod : data.paymentMethod = "online") :
    ∃ effs ps u a,
      createBooking enc (some provider) data customerTimezone env =
        .ok (.redirectConfirmation ps, effs) ∧
      effs.filter Effect.isUpdateBooking =
        [Effect.updateBooking provider.username env.bookingId u] ∧
      u.status = some "Upcoming" ∧
      u.payment = some { status := some "Pending", amount := some (st.price.getD 0) } ∧
      Effect.sendBookingConfirmationEmail data.customerEmail "This is a free booking." a ∈ effs ∧
      Effect.sendProviderBookingNotificationEmail provider.contactEmail
        "This is a free booking." ∈ effs ∧
      effs.filter Effect.isCreateOrder = [] := by
  have hcond : (isPaidServiceOf (some st) && provider.settings.onlinePaymentEnabled &&
      (data.paymentMethod == "online")) = false := by
    simp [honline]
  have hlater : (data.paymentMethod == "later") = false := by
    rw [hmethod]; decide
  simp only [createBooking, hfind, hvalid, hcond, hlater]
  simp only [not_true, if_false, Bool.false_eq_true, Bool.and_false, reduceIte]
  refine ⟨_, _,
    (applyCalendar provider env.calendar
      { status := some "Upcoming"
        payment := some { amount := some (jsOrNat st.price 0), status := some "Pending" } }).1,
    buildCalendarArtifacts enc provider.name data.serviceType
      (fullAddressOf (some st) provider.settings data) provider.settings.timezone
      provider.settings.slotDuration data.dateTime,
    rfl, ?_, ?_, ?_, ?_, ?_, ?_⟩
  · simp [List.filter_cons, List.filter_append, Effect.isUpdateBooking,
      (applyCalendar_effects_inert provider env.calendar _).1]
  · exact (applyCalendar_preserves provider env.calendar _).1
  · rw [(applyCalendar_preserves provider env.calendar _).2, jsOrNat_zero_getD]
  · simp
  · simp
  · simp [List.filter_cons, List.filter_append, Effect.isCreateOrder,
      (applyCalendar_effects_inert provider env.calendar _).2.1]

/-- Witness for C9: the ₹500 doorstep service with the online method chosen
while the sample provider has online payment disabled. -/
theorem online_choice_downgrade_c9_witness :
    ∃ effs ps u a,
      createBooking demoEnc (some sampleProvider) onlineBookingData "UTC" sampleEnv =
        .ok (.redirectConfirmation ps, effs) ∧
      effs.filter Effect.isUpdateBooking = [Effect.updateBooking "asha" "b1" u] ∧
      u.status = some "Upcoming" ∧
      u.payment = some { status := some "Pending", amount := some 500 } ∧
      Effect.sendBookingConfirmationEmail "ravi@example.com" "This is a free booking." a ∈ effs ∧
      Effect.sendProviderBookingNotificationEmail "asha@example.com"
        "This is a free booking." ∈ effs ∧
      effs.filter Effect.isCreateOrder = [] := by
  exact online_choice_downgrade_c9 demoEnc sampleProvider onlineBookingData "UTC" sampleEnv
    doorstepService (by decide) (by decide) (by decide) (by decide) (by decide)

/-! ## Claim C1 -/

/-- **C1**: with a configured secret, signature verification succeeds iff the
supplied signature equals the hex HMAC-SHA256 of `orderId + "|" + paymentId`
under that secret (`hmacSha256Hex` is the external crypto primitive); on any
mismatch both verifiers return exactly
`{success: false, error: 'Invalid payment signature.'}`, `verifyBookingPayment`
with an empty effect trace — no booking update, ledger record, notification
or email — and `verifySubscriptionPaymentSignature` performs no effects at
all by construction. -/
theorem payment_signature_verification_c1
    (hmacSha256Hex : String → String → String) (enc : String → String) (ks : String)
    (hks : ks ≠ "") (resp : PaymentResponse) (providerUsername bookingId : String)
    (amount : Nat) (booking? : Option StoredBooking) (provider? : Option Provider)
    (cal : CalendarOutcome) :
    (verifySubscriptionPaymentSignature hmacSha256Hex (some ks) resp =
        .ok { success := true } ↔
      resp.razorpay_signature =
        hmacSha256Hex ks (resp.razorpay_order_id ++ "|" ++ resp.razorpay_payment_id)) ∧
    (verifySubscriptionPaymentSignature hmacSha256Hex (some ks) resp =
        .ok { success := false, error := some "Invalid payment signature." } ↔
      resp.razorpay_signature ≠
        hmacSha256Hex ks (resp.razorpay_order_id ++ "|" ++ resp.razorpay_payment_id)) ∧
    (verifyBookingPayment hmacSha256Hex enc (some ks) providerUsername bookingId resp
        amount booking? provider? cal =
        .ok ({ success := false, error := some "Invalid payment signature." }, []) ↔
      resp.razorpay_signature ≠
        hmacSha256Hex ks (resp.razorpay_order_id ++ "|" ++ resp.razorpay_payment_id)) := by
  have hkt : jsTruthyStr (some ks) = true := by simp [jsTruthyStr, hks]
  refine ⟨?_, ?_, ?_⟩
  · unfold verifySubscriptionPaymentSignature
    simp only [hkt, not_true, Bool.true_eq_false, if_false, Option.getD_some, reduceIte]
    split_ifs with h
    · constructor
      · intro hA; exfalso; simp at hA
      · intro hr; exact absurd hr.symm h
    · push_neg at h
      simp [h]
  · unfold verifySubscriptionPaymentSignature
    simp only [hkt, not_true, Bool.true_eq_false, if_false, Option.getD_some, reduceIte]
    split_ifs with h
    · constructor
      · intro _; exact Ne.symm h
      · intro _; rfl
    · push_neg at h
      constructor
      · intro hA; exfalso; simp at hA
      · intro hr; exact absurd h.symm hr
  · unfold verifyBookingPayment
    simp only [hkt, not_true, Bool.true_eq_false, if_false, Option.getD_some, reduceIte]
    split_ifs with h
    · constructor
      · intro _; exact Ne.symm h
      · intro _; rfl
    · push_neg at h
      constructor
      · intro hA
        exfalso
        rcases booking? with _ | b <;> rcases provider? with _ | p <;> simp at hA
      · intro hr; exact absurd h.symm hr

/-- Witness for C1: a concrete tampered signature is rejected with the exact
error and no effects, by both verifiers. -/
theorem payment_signature_verification_c1_witness :
    ("sekret" : String) ≠ "" ∧
    verifySubscriptionPaymentSignature demoHmac (some "sekret")
      { razorpay_order_id := "o1", razorpay_payment_id := "p1", razorpay_signature := "bad" } =
      .ok { success := false, error := some "Invalid payment signature." } ∧
    verifyBookingPayment demoHmac demoEnc (some "sekret") "asha" "b1"
      { razorpay_order_id := "o1", razorpay_payment_id := "p1", razorpay_signature := "bad" }
      500 none none CalendarOutcome.failed =
      .ok ({ success := false, error := some "Invalid payment signature." }, []) := by
  have h := payment_signature_verification_c1 demoHmac demoEnc "sekret" (by decide)
    { razorpay_order_id := "o1", razorpay_payment_id := "p1", razorpay_signature := "bad" }
    "asha" "b1" 500 none none CalendarOutcome.failed
  refine ⟨by decide, ?_, ?_⟩
  · exact h.2.1.mpr (by decide)
  · exact h.2.2.mpr (by decide)

/-! ## Claim C5 -/

/-- Counterexample to C5 as stated: blocking the already-blocked sample slot
does not leave the stored collection unchanged — `updateBlockedSlots`
appends unconditionally and the persisted list holds a duplicate entry. -/
theorem blocked_slot_duplicate_cex_c5 :
    (updateBlockedSlots (some sampleProvider) "asha" "2024-05-01T10:00:00.000Z" true).2.1 =
      some duplicatedSlotProvider ∧
    duplicatedSlotProvider.settings.blockedSlots =
      some ["2024-05-01T10:00:00.000Z", "2024-05-01T10:00:00.000Z"] ∧
    ¬ (["2024-05-01T10:00:00.000Z", "2024-05-01T10:00:00.000Z"] : List String).Nodup := by
  exact ⟨by decide, by decide, by decide⟩

/-- **C5 (amended)**: `updateBlockedDates` has set semantics — blocking
already-present dates leaves the stored list unchanged, the blocked-date list
is always deduplicated with exactly the union as members, and unblocking
dates not present is a no-op; `updateBlockedSlots` unblocking a slot not
present is likewise a no-op; but blocking a slot appends it unconditionally
(`current ++ [slot]`), so re-blocking an already-blocked slot stores a
duplicate instead of leaving the set unchanged. -/
theorem blocking_set_semantics_amended_c5 (provider : Provider)
    (username slotISO : String) (dates : List String) :
    ((provider.settings.blockedDates.getD []).Nodup →
      (∀ d ∈ dates, d ∈ provider.settings.blockedDates.getD []) →
      ∃ p, (updateBlockedDates (some provider) username dates true).2.1 = some p ∧
        p.settings.blockedDates = some (provider.settings.blockedDates.getD [])) ∧
    (∀ p, (updateBlockedDates (some provider) username dates true).2.1 = some p →
      ∃ l, p.settings.blockedDates = some l ∧ l.Nodup ∧
        (∀ x, x ∈ l ↔ x ∈ provider.settings.blockedDates.getD [] ∨ x ∈ dates)) ∧
    ((∀ d ∈ provider.settings.blockedDates.getD [], d ∉ dates) →
      ∃ p, (updateBlockedDates (some provider) username dates false).2.1 = some p ∧
        p.settings.blockedDates = some (provider.settings.blockedDates.getD [])) ∧
    (slotISO ∉ provider.settings.blockedSlots.getD [] →
      ∃ p, (updateBlockedSlots (some provider) username slotISO false).2.1 = some p ∧
        p.settings.blockedSlots = some (provider.settings.blockedSlots.getD [])) ∧
    (∃ p, (updateBlockedSlots (some provider) username slotISO true).2.1 = some p ∧
      p.settings.blockedSlots = some (provider.settings.blockedSlots.getD [] ++ [slotISO])) := by
  refine ⟨?_, ?_, ?_, ?_, ?_⟩
  · intro hnd hsub
    refine ⟨{ provider with settings := { provider.settings with
        blockedDates := some (jsSetDedup (provider.settings.blockedDates.getD [] ++ dates)) } },
      by simp [updateBlockedDates], ?_⟩
    exact congrArg some (jsSetDedup_append_of_subset _ dates hnd hsub)
  · intro p hp
    simp only [updateBlockedDates, reduceIte, Option.some.injEq] at hp
    refine ⟨jsSetDedup (provider.settings.blockedDates.getD [] ++ dates), ?_,
      jsSetDedup_nodup _, ?_⟩
    · rw [← hp]
    · intro x
      rw [mem_jsSetDedup, List.mem_append]
  · intro habs
    refine ⟨{ provider with settings := { provider.settings with
        blockedDates := some ((provider.settings.blockedDates.getD []).filter
          (fun d => !(dates.contains d))) } },
      by simp [updateBlockedDates], ?_⟩
    refine congrArg some ?_
    apply List.filter_eq_self.mpr
    intro d hd
    have hdn : d ∉ dates := habs d hd
    simp [List.contains, List.elem_iff, hdn]
  · intro habs
    refine ⟨{ provider with settings := { provider.settings with
        blockedSlots := some ((provider.settings.blockedSlots.getD []).filter
          (fun s => s != slotISO)) } },
      by simp [updateBlockedSlots], ?_⟩
    refine congrArg some ?_
    apply List.filter_eq_self.mpr
    intro s hs
    simp only [bne_iff_ne, ne_eq, decide_eq_true_eq]
    intro hcontra
    exact habs (hcontra ▸ hs)
  · exact ⟨{ provider with settings := { provider.settings with
      blockedSlots := some (provider.settings.blockedSlots.getD [] ++ [slotISO]) } },
      by simp [updateBlockedSlots], rfl⟩

/-- Witness for the amended C5: re-blocking the already blocked sample date
leaves the stored date list unchanged, and unblocking a slot that is not in
the sample provider's list is a no-op. -/
theorem blocking_set_semantics_amended_c5_witness :
    (∃ p, (updateBlockedDates (some sampleProvider) "asha" ["2024-05-02"] true).2.1 = some p ∧
      p.settings.blockedDates = some ["2024-05-02"]) ∧
    (∃ p, (updateBlockedSlots (some sampleProvider) "asha" "slotX" false).2.1 = some p ∧
      p.settings.blockedSlots = some ["2024-05-01T10:00:00.000Z"]) := by
  have h := blocking_set_semantics_amended_c5 sampleProvider "asha" "slotX" ["2024-05-02"]
  exact ⟨h.1 (by decide) (by decide), h.2.2.2.1 (by decide)⟩

/-! ## Claim C10 -/

/-- **C10**: both blocking workflows write back the provider with the full
prior settings object in which only the one blocked collection is replaced —
every other provider field (plan id, expiry, trial flag, contact, service
types, ...) and every other settings field is persisted unchanged. -/
theorem blocked_update_frame_c10 (provider : Provider) (username slotISO : String)
    (dates : List String) (shouldBlock : Bool) :
    (∃ bs, (updateBlockedSlots (some provider) username slotISO shouldBlock).2.1 =
      some { provider with settings := { provider.settings with blockedSlots := some bs } }) ∧
    (∃ bd, (updateBlockedDates (some provider) username dates shouldBlock).2.1 =
      some { provider with settings := { provider.settings with blockedDates := some bd } }) := by
  refine ⟨⟨if shouldBlock then provider.settings.blockedSlots.getD [] ++ [slotISO]
      else (provider.settings.blockedSlots.getD []).filter (fun s => s != slotISO), ?_⟩,
    ⟨if shouldBlock then jsSetDedup (provider.settings.blockedDates.getD [] ++ dates)
      else (provider.settings.blockedDates.getD []).filter (fun d => !(dates.contains d)), ?_⟩⟩
  · rfl
  · rfl

/-! ## Claim C6 -/

/-- **C6** — divergence at a concrete confirmed booking.  For provider
timezone Asia/Kolkata (UTC offset +330 min = 19800000 ms), default slot
duration, booking start 2024-01-15T10:00:00.000Z: the Google link and the
Outlook link encode the UTC instants 10:00Z and 11:00Z (so end = start + 60
minutes holds), but the ics labels the same UTC clock digits with the
provider timezone id instead of converting; interpreted per RFC 5545 its
DTSTART denotes 1705293000000 (= 04:30Z) while the Google value denotes
1705312800000 (= 10:00Z), so the three artifacts do not encode identical
start instants (they would only at offset 0). -/
theorem ics_instant_mismatch_c6 :
    (buildCalendarArtifacts demoEnc "Asha" "Home Repair" (some "addr") "Asia/Kolkata" none
        ⟨2024, 1, 15, 36000000⟩).googleLink =
      "https://www.google.com/calendar/render?action=TEMPLATE&text=Appointment with Asha&dates=20240115T100000Z/20240115T110000Z&details=Booking for Home Repair with Asha.&location=addr" ∧
    (buildCalendarArtifacts demoEnc "Asha" "Home Repair" (some "addr") "Asia/Kolkata" none
        ⟨2024, 1, 15, 36000000⟩).outlookLink =
      "https://outlook.live.com/calendar/0/deeplink/compose?path=/calendar/action/compose&rru=addevent&subject=Appointment with Asha&startdt=2024-01-15T10:00:00.000Z&enddt=2024-01-15T11:00:00.000Z&body=Booking for Home Repair with Asha.&location=addr" ∧
    (buildCalendarArtifacts demoEnc "Asha" "Home Repair" (some "addr") "Asia/Kolkata" none
        ⟨2024, 1, 15, 36000000⟩).icsContent =
      "BEGIN:VCALENDAR\r\nVERSION:2.0\r\nBEGIN:VEVENT\r\nDTSTART;TZID=Asia/Kolkata:20240115T100000\r\nDTEND;TZID=Asia/Kolkata:20240115T110000\r\nSUMMARY:Appointment with Asha\r\nDESCRIPTION:Booking for Home Repair with Asha.\r\nLOCATION:addr\r\nEND:VEVENT\r\nEND:VCALENDAR" ∧
    JsDate.addMs ⟨2024, 1, 15, 36000000⟩ (jsOrNat none 60 * 60 * 1000) =
      ⟨2024, 1, 15, 39600000⟩ ∧
    utcCompactInstant "20240115T100000Z" = some 1705312800000 ∧
    tzCompactInstant 19800000 "20240115T100000" = some 1705293000000 ∧
    tzCompactInstant 19800000 "20240115T100000" ≠ utcCompactInstant "20240115T100000Z" ∧
    tzCompactInstant 0 "20240115T100000" = utcCompactInstant "20240115T100000Z" := by
  exact ⟨rfl, rfl, rfl, by decide, by decide, by decide, by decide, by decide⟩
